import Mathlib

/-!
# Verification of the azafea metrics event classification engine

A shallow embedding of `azafea/event_processors/metrics/events/_base.py`:
the event-type registries, payload decoding (`MetricEvent._parse_payload`,
`UnknownEvent._parse_payload`), and the three classification dispatchers
(`new_singular_event`, `new_aggregate_event`, `new_sequence_event`),
together with theorems settling the specification's claims about them.

GLib variants are modelled as an inductive tree of typed values; the GLib
serialization primitive (`get_data_as_bytes`) is modelled by an executable
encoding function — only the identity "stored bytes = bytes the reader
reports for the value" matters to the claims, never the concrete encoding.
Python exceptions are modelled as an error type distinguishing `KeyError`
from other exceptions, because the dispatchers' `except` clauses do.
-/

namespace Azafea

/-- Raw byte strings (Python `bytes`), modelled as lists of naturals. -/
abbrev Bytes := List Nat

/-- A decoded `GLib.Variant` value: the typed tree of primitive values the
Variant Reader produces.  `maybe` carries its element type signature so that
an empty maybe still reports a type; `boxed` is the `"v"` (variant) box. -/
inductive GVariant where
  | int64 (n : Int)
  | uint32 (n : Nat)
  | bytes (bs : Bytes)
  | str (s : String)
  | tuple (children : List GVariant)
  | maybe (elemType : String) (val : Option GVariant)
  | boxed (inner : GVariant)
  deriving Repr

namespace GVariant

/-- `GLib.Variant.get_type_string()`: the structural type signature. -/
def typeString : GVariant → String
  | .int64 _ => "x"
  | .uint32 _ => "u"
  | .bytes _ => "ay"
  | .str _ => "s"
  | .tuple cs => "(" ++ typeStringList cs ++ ")"
  | .maybe t _ => "m" ++ t
  | .boxed _ => "v"
where typeStringList : List GVariant → String
  | [] => ""
  | v :: vs => typeString v ++ typeStringList vs

/-- `GLib.Variant.print_()`: the rendered text form (used only inside error
messages; its exact shape is irrelevant to every claim). -/
def render : GVariant → String
  | .int64 n => toString n
  | .uint32 n => toString n
  | .bytes bs => toString bs
  | .str s => s
  | .tuple cs => "(" ++ renderList cs ++ ")"
  | .maybe _ none => "nothing"
  | .maybe _ (some v) => render v
  | .boxed v => "<" ++ render v ++ ">"
where renderList : List GVariant → String
  | [] => ""
  | v :: vs => render v ++ ", " ++ renderList vs

/-- The GLib serialization of a value, modelling the byte image that
`get_data_as_bytes` exposes.  An empty maybe serializes to zero bytes
(the case in which GLib < 2.62 reports `None`, see the workaround in
`UnknownEvent._parse_payload`). -/
def encode : GVariant → Bytes
  | .int64 n => 1 :: encodeNat ((n + 2 ^ 63).toNat)
  | .uint32 n => 2 :: encodeNat n
  | .bytes bs => 3 :: bs.length :: bs
  | .str s => 4 :: (s.data.map Char.toNat)
  | .tuple cs => 5 :: cs.length :: encodeList cs
  | .maybe _ none => []
  | .maybe _ (some v) => 6 :: encode v
  | .boxed v => 7 :: encode v
where
  encodeNat (n : Nat) : Bytes := [n % 256, n / 256]
  encodeList : List GVariant → Bytes
    | [] => []
    | v :: vs => encode v ++ encodeList vs

/-- `GLib.Variant.get_maybe()`: the contained value of a maybe variant. -/
def getMaybe : GVariant → Option GVariant
  | .maybe _ v => v
  | _ => none

/-- `GLib.Variant.get_child_value(i)` on container values. -/
def getChildValue : GVariant → Nat → Option GVariant
  | .tuple cs, i => cs.get? i
  | .maybe _ (some v), 0 => some v
  | .boxed v, 0 => some v
  | _, _ => none

/-- `GLib.Variant.n_children()` on container values. -/
def nChildren : GVariant → Nat
  | .tuple cs => cs.length
  | .maybe _ none => 0
  | .maybe _ (some _) => 1
  | .boxed _ => 1
  | _ => 0

/-- `GLib.Variant.get_uint32()`: the 32-bit cell the reader returns. -/
def getUint32 : GVariant → Option Nat
  | .uint32 n => some (n % 2 ^ 32)
  | _ => none

/-- `GLib.Variant.get_int64()`. -/
def getInt64 : GVariant → Option Int
  | .int64 n => some n
  | _ => none

/-- `GLib.Variant.get_data_as_bytes()`: `none` models the GLib < 2.62
behaviour of returning no bytes object for a zero-sized serialization. -/
def getDataAsBytes (v : GVariant) : Option Bytes :=
  match encode v with
  | [] => none
  | b :: bs => some (b :: bs)

end GVariant

/-- Modelled from the spec: the Variant Reader primitive `get_variant`
(from `azafea/event_processors/metrics/utils.py`, not under `src/`),
which unwraps nested `"v"` variant boxes to reach the payload value. -/
def getVariant : GVariant → GVariant
  | .boxed inner => getVariant inner
  | v => v

/-- Modelled from the spec: the Variant Reader primitive `get_bytes`
(from `azafea/event_processors/metrics/utils.py`, not under `src/`),
which reads the raw byte content of an `"ay"` value. -/
def getBytes : GVariant → Option Bytes
  | .bytes bs => some bs
  | _ => none

/-- Modelled from the spec: the Variant Reader primitive `get_child_values`
(from `azafea/event_processors/metrics/utils.py`, not under `src/`): the
list of all child values of a container, in delivered order. -/
def getChildValues : GVariant → List GVariant
  | .tuple cs => cs
  | .maybe _ none => []
  | .maybe _ (some v) => [v]
  | .boxed v => [v]
  | _ => []

/-- Modelled from the spec (§4.3): the Timestamp Reconciler
`get_event_datetime` (from `azafea/event_processors/metrics/utils.py`, not
under `src/`): `event_absolute = request_absolute + (event_relative −
request_relative)`, over unbounded signed integers, with no clamping. -/
def getEventDatetime (request_absolute request_relative event_relative : Int) : Int :=
  request_absolute + (event_relative - request_relative)

/-- One lowercase hex digit. -/
def hexChar (n : Nat) : Char :=
  if n < 10 then Char.ofNat (48 + n) else Char.ofNat (87 + n)

/-- Two lowercase hex digits of one byte. -/
def hexByte (b : Nat) : String :=
  String.mk [hexChar (b / 16 % 16), hexChar (b % 16)]

/-- Lowercase hex of a byte string. -/
def hexBytes (bs : Bytes) : String :=
  String.join (bs.map hexByte)

/-- `str(uuid.UUID(bytes=bs))`: the canonical 8-4-4-4-12 lowercase hex
form of a 16-byte identifier; `none` when `bs` is not 16 bytes long
(`uuid.UUID` raises `ValueError` there, outside every dispatcher's `try`
block, so the dispatchers propagate that structural failure). -/
def uuidFormat (bs : Bytes) : String :=
  String.intercalate "-"
    [hexBytes (bs.take 4), hexBytes ((bs.drop 4).take 2), hexBytes ((bs.drop 6).take 2),
     hexBytes ((bs.drop 8).take 2), hexBytes (bs.drop 10)]

/-- See `uuidFormat`; `uuid.UUID` accepts exactly 16 bytes. -/
def uuidString (bs : Bytes) : Option String :=
  if bs.length = 16 then some (uuidFormat bs) else none

/-- A raised Python exception.  `KeyError` is kept apart from every other
exception because the dispatchers' first `except` clause matches exactly
`KeyError`; all remaining exceptions fall to the catch-all clause. -/
inductive PyError where
  | keyError (key : String)
  | valueError (msg : String)
  | otherError (msg : String)
  deriving Repr, DecidableEq

/-- Python `str(e)`: for a `KeyError` this is the `repr` of the key (with
quotes); otherwise the message itself. -/
def PyError.toStr : PyError → String
  | .keyError k => "'" ++ k ++ "'"
  | .valueError m => m
  | .otherError m => m

/-- Whether the exception is a `KeyError`. -/
def PyError.isKeyError : PyError → Bool
  | .keyError _ => true
  | _ => false

/-- The decoded payload fields merged into the record constructor's
keyword arguments (Python `Dict[str, Any]`). -/
abbrev FieldSet := List (String × GVariant)

/-- A registered event-model class: its `__event_uuid__`, its
`__payload_type__`, and its `_get_fields_from_payload` static method.
The extraction method is arbitrary code in the concrete model subclasses
and may raise any exception. -/
structure EventModel where
  eventUuid : String
  payloadType : Option String
  getFieldsFromPayload : GVariant → Except PyError FieldSet

/-- `MetricEvent._parse_payload`: unwrap the maybe payload, then
  * no declared payload type → empty field set (a present payload is only
    logged, never an error);
  * declared type but no payload → `ValueError` ("... but got none");
  * type signature mismatch after `get_variant` unwrapping → `ValueError`
    naming the expected signature, the rendered payload and the actual
    signature;
  * otherwise the model's field extraction, whose exceptions propagate. -/
def MetricEvent.parsePayload (model : EventModel) (maybePayload : GVariant) :
    Except PyError FieldSet :=
  match model.payloadType, maybePayload.getMaybe with
  | none, _ => .ok []
  | some ptype, none =>
      .error (.valueError ("Metric event " ++ model.eventUuid ++ " needs a " ++ ptype ++
        " payload, but got none"))
  | some ptype, some p =>
      let payload := getVariant p
      let payloadTypeStr := payload.typeString
      if payloadTypeStr ≠ ptype then
        .error (.valueError ("Metric event " ++ model.eventUuid ++ " needs a " ++ ptype ++
          " payload, but got " ++ payload.render ++ " (" ++ payloadTypeStr ++ ")"))
      else
        model.getFieldsFromPayload payload

/-- `UnknownEvent._parse_payload`: the raw serialized bytes of the payload
variant, substituting `b''` when GLib < 2.62 reports no bytes object for a
zero-sized value (the issue-1865 workaround in the source). -/
def UnknownEvent.parsePayload (maybePayload : GVariant) : Bytes :=
  match maybePayload.getDataAsBytes with
  | none => []
  | some asBytes => asBytes

/-- The owning `Request` row: the per-request clock calibration pair read
by the dispatchers. -/
structure Request where
  absoluteTimestamp : Int
  relativeTimestamp : Int
  deriving Repr, DecidableEq

/-- The classification result for a singular event: one row in exactly one
of the concrete-model tables (`known`), `unknown_singular_event`
(`UnknownSingularEvent`: `occured_at`, `event_id`, `payload_data`) or
`invalid_singular_event` (`InvalidSingularEvent`: those plus `error`).
Known rows have no `event_id` column; the model class identity is kept as
its `__event_uuid__`.  The column misspelling `occured_at` is the
source's. -/
inductive SingularEventRecord where
  | known (request : Request) (userId : Int) (occuredAt : Int) (eventUuid : String)
      (fields : FieldSet)
  | unknown (request : Request) (userId : Int) (occuredAt : Int) (eventId : String)
      (payloadData : Bytes)
  | invalid (request : Request) (userId : Int) (occuredAt : Int) (eventId : String)
      (payloadData : Bytes) (error : String)
  deriving Repr

/-- The `user_id` column (`BigInteger`, present on every variant). -/
def SingularEventRecord.userId : SingularEventRecord → Int
  | .known _ u _ _ _ => u
  | .unknown _ u _ _ _ => u
  | .invalid _ u _ _ _ _ => u

/-- The `occured_at` column (present on every variant of the category). -/
def SingularEventRecord.occuredAt : SingularEventRecord → Int
  | .known _ _ t _ _ => t
  | .unknown _ _ t _ _ => t
  | .invalid _ _ t _ _ _ => t

/-- Whether the row landed in the `invalid_singular_event` table. -/
def SingularEventRecord.isInvalid : SingularEventRecord → Bool
  | .invalid _ _ _ _ _ _ => true
  | _ => false

/-- Whether the row landed in the `unknown_singular_event` table. -/
def SingularEventRecord.isUnknown : SingularEventRecord → Bool
  | .unknown _ _ _ _ _ => true
  | _ => false

/-- The classification result for an aggregate event; every variant also
carries the `count` column. -/
inductive AggregateEventRecord where
  | known (request : Request) (userId : Int) (occuredAt : Int) (count : Int)
      (eventUuid : String) (fields : FieldSet)
  | unknown (request : Request) (userId : Int) (occuredAt : Int) (count : Int)
      (eventId : String) (payloadData : Bytes)
  | invalid (request : Request) (userId : Int) (occuredAt : Int) (count : Int)
      (eventId : String) (payloadData : Bytes) (error : String)
  deriving Repr

/-- The `occured_at` column (present on every variant of the category). -/
def AggregateEventRecord.occuredAt : AggregateEventRecord → Int
  | .known _ _ t _ _ _ => t
  | .unknown _ _ t _ _ _ => t
  | .invalid _ _ t _ _ _ _ => t

/-- The `count` column (present on every variant of the category). -/
def AggregateEventRecord.count : AggregateEventRecord → Int
  | .known _ _ _ c _ _ => c
  | .unknown _ _ _ c _ _ => c
  | .invalid _ _ _ c _ _ _ => c

/-- The classification result for a sequence: one row in a concrete
`SequenceEvent` model table (`known`: `started_at`, `stopped_at`), in
`unknown_sequence` (`UnknownSequence(UnknownEvent)`: only `event_id` and
`payload_data` — the class does *not* inherit `SequenceEvent`, so it has
no timestamp columns), or in `invalid_sequence`
(`InvalidSequence(InvalidEvent)`: likewise no timestamp columns). -/
inductive SequenceRecord where
  | known (request : Request) (userId : Int) (startedAt : Int) (stoppedAt : Int)
      (eventUuid : String) (fields : FieldSet)
  | unknown (request : Request) (userId : Int) (eventId : String) (payloadData : Bytes)
  | invalid (request : Request) (userId : Int) (eventId : String) (payloadData : Bytes)
      (error : String)
  deriving Repr

/-- The `started_at` column where the row's table has one. -/
def SequenceRecord.startedAt? : SequenceRecord → Option Int
  | .known _ _ t _ _ _ => some t
  | _ => none

/-- The `stopped_at` column where the row's table has one. -/
def SequenceRecord.stoppedAt? : SequenceRecord → Option Int
  | .known _ _ _ t _ _ => some t
  | _ => none

/-- The `payload_data` column where the row's table has one. -/
def SequenceRecord.payloadData? : SequenceRecord → Option Bytes
  | .unknown _ _ _ d => some d
  | .invalid _ _ _ d _ => some d
  | _ => none

/-- Whether the row landed in the `invalid_sequence` table. -/
def SequenceRecord.isInvalid : SequenceRecord → Bool
  | .invalid _ _ _ _ _ => true
  | _ => false

/-- One of the three module-level registries (`SINGULAR_EVENT_MODELS`,
`AGGREGATE_EVENT_MODELS`, `SEQUENCE_EVENT_MODELS`): a Python dict from
`__event_uuid__` to model class, modelled as an association list whose
most recent binding wins lookup. -/
abbrev EventModelRegistry := List (String × EventModel)

/-- `MetricMeta.__new__`'s registration step for a class carrying an
`__event_uuid__`: the plain dict assignment `MODELS[event_uuid] = cls`. -/
def registerEventModel (models : EventModelRegistry) (eventUuid : String)
    (cls : EventModel) : EventModelRegistry :=
  (eventUuid, cls) :: models

/-- `MODELS[event_id]` as used by the dispatchers (raising `KeyError`
becomes `none` here; the dispatchers' `except KeyError` handles it). -/
def lookupEventModel (models : EventModelRegistry) (eventUuid : String) : Option EventModel :=
  models.lookup eventUuid

/-- `new_singular_event`: read `user_id`, `event_id`, the relative
timestamp and the maybe payload from the event tuple, reconcile the
timestamp, then try the registered model; `KeyError` (registry miss — or
any `KeyError` escaping model construction) gives an Unknown row, any
other exception an Invalid row carrying `str(e)`.  Structural accessor
failures, which in Python raise outside the `try` block, are `none`;
`dbsession.add` is persistence staging outside the returned record. -/
def newSingularEvent (models : EventModelRegistry) (request : Request)
    (eventVariant : GVariant) : Option SingularEventRecord := do
  let userIdWire ← (← eventVariant.getChildValue 0).getUint32
  let userId : Int := Int.ofNat userIdWire
  let eventId ← uuidString (← getBytes (← eventVariant.getChildValue 1))
  let eventRelativeTimestamp ← (← eventVariant.getChildValue 2).getInt64
  let payload ← eventVariant.getChildValue 3
  let eventDate := getEventDatetime request.absoluteTimestamp request.relativeTimestamp
    eventRelativeTimestamp
  match lookupEventModel models eventId with
  | some eventModel =>
      match MetricEvent.parsePayload eventModel payload with
      | .ok fields =>
          pure (.known request userId eventDate eventModel.eventUuid fields)
      | .error e =>
          if e.isKeyError then
            pure (.unknown request userId eventDate eventId (UnknownEvent.parsePayload payload))
          else
            pure (.invalid request userId eventDate eventId (UnknownEvent.parsePayload payload)
              e.toStr)
  | none =>
      pure (.unknown request userId eventDate eventId (UnknownEvent.parsePayload payload))

/-- `new_aggregate_event`: like `new_singular_event` with the extra
`count` column read as an `int64` at child index 2, the relative
timestamp at index 3 and the payload at index 4. -/
def newAggregateEvent (models : EventModelRegistry) (request : Request)
    (eventVariant : GVariant) : Option AggregateEventRecord := do
  let userIdWire ← (← eventVariant.getChildValue 0).getUint32
  let userId : Int := Int.ofNat userIdWire
  let eventId ← uuidString (← getBytes (← eventVariant.getChildValue 1))
  let count ← (← eventVariant.getChildValue 2).getInt64
  let eventRelativeTimestamp ← (← eventVariant.getChildValue 3).getInt64
  let payload ← eventVariant.getChildValue 4
  let eventDate := getEventDatetime request.absoluteTimestamp request.relativeTimestamp
    eventRelativeTimestamp
  match lookupEventModel models eventId with
  | some eventModel =>
      match MetricEvent.parsePayload eventModel payload with
      | .ok fields =>
          pure (.known request userId eventDate count eventModel.eventUuid fields)
      | .error e =>
          if e.isKeyError then
            pure (.unknown request userId eventDate count eventId
              (UnknownEvent.parsePayload payload))
          else
            pure (.invalid request userId eventDate count eventId
              (UnknownEvent.parsePayload payload) e.toStr)
  | none =>
      pure (.unknown request userId eventDate count eventId (UnknownEvent.parsePayload payload))

/-- `new_sequence_event`: fewer than 2 children short-circuits to an
Invalid-Sequence row (before any registry lookup) whose payload is the
whole child list and whose error names the minimum and the actual count;
otherwise the first child is the start event, the last the stop event,
both timestamps are reconciled, decoding uses the start child's payload,
and the registry lookup/decode path mirrors the other dispatchers —
except that the Unknown and Invalid rows store the whole child list as
their raw payload. -/
def newSequenceEvent (models : EventModelRegistry) (request : Request)
    (sequenceVariant : GVariant) : Option SequenceRecord := do
  let userIdWire ← (← sequenceVariant.getChildValue 0).getUint32
  let userId : Int := Int.ofNat userIdWire
  let eventId ← uuidString (← getBytes (← sequenceVariant.getChildValue 1))
  let events ← sequenceVariant.getChildValue 2
  let numEvents := events.nChildren
  if numEvents < 2 then
    let error := "Sequence must have at least 2 elements, but only had " ++ toString numEvents
    pure (.invalid request userId eventId (UnknownEvent.parsePayload events) error)
  else do
    let startVariant ← (getChildValues events).head?
    let stopVariant ← (getChildValues events).getLast?
    let startRelativeTimestamp ← (← startVariant.getChildValue 0).getInt64
    let payload ← startVariant.getChildValue 1
    let startedAt := getEventDatetime request.absoluteTimestamp request.relativeTimestamp
      startRelativeTimestamp
    let stopRelativeTimestamp ← (← stopVariant.getChildValue 0).getInt64
    let stoppedAt := getEventDatetime request.absoluteTimestamp request.relativeTimestamp
      stopRelativeTimestamp
    match lookupEventModel models eventId with
    | some eventModel =>
        match MetricEvent.parsePayload eventModel payload with
        | .ok fields =>
            pure (.known request userId startedAt stoppedAt eventModel.eventUuid fields)
        | .error e =>
            if e.isKeyError then
              pure (.unknown request userId eventId (UnknownEvent.parsePayload events))
            else
              pure (.invalid request userId eventId (UnknownEvent.parsePayload events) e.toStr)
    | none =>
        pure (.unknown request userId eventId (UnknownEvent.parsePayload events))

/-- A well-formed singular event tuple `(uint32, ay, x, payload)`. -/
def singularVariant (u : Nat) (idb : Bytes) (ts : Int) (p : GVariant) : GVariant :=
  .tuple [.uint32 u, .bytes idb, .int64 ts, p]

/-- A well-formed aggregate event tuple `(uint32, ay, x, x, payload)`. -/
def aggregateVariant (u : Nat) (idb : Bytes) (count ts : Int) (p : GVariant) : GVariant :=
  .tuple [.uint32 u, .bytes idb, .int64 count, .int64 ts, p]

/-- A well-formed sequence tuple `(uint32, ay, children)`. -/
def sequenceVariant (u : Nat) (idb : Bytes) (children : List GVariant) : GVariant :=
  .tuple [.uint32 u, .bytes idb, .tuple children]

/-- A well-formed sequence child `(x, payload)`. -/
def sequenceChild (ts : Int) (p : GVariant) : GVariant :=
  .tuple [.int64 ts, p]

/-! ## Concrete sample data

Small closed inputs used by witnesses and counterexamples. -/

/-- The all-zero 16-byte event type identifier. -/
def sampleIdBytes : Bytes := List.replicate 16 0

/-- `str(uuid.UUID(bytes=b'\x00' * 16))`. -/
def sampleUuid : String := "00000000-0000-0000-0000-000000000000"

/-- A calibration pair: wall clock 1000, device counter 50. -/
def sampleRequest : Request := ⟨1000, 50⟩

/-- A maybe payload carrying the boxed `int64 3`. -/
def samplePayload : GVariant := .maybe "v" (some (.boxed (.int64 3)))

/-- An empty maybe payload (serializes to zero bytes). -/
def emptyPayload : GVariant := .maybe "v" none

/-- A model whose extraction returns one field. -/
def sampleModel : EventModel := ⟨sampleUuid, some "x", fun v => .ok [("value", v)]⟩

/-- A model whose extraction raises `KeyError('boom')`. -/
def keyErrorModel : EventModel := ⟨sampleUuid, some "x", fun _ => .error (.keyError "boom")⟩

/-- A model whose extraction raises `ValueError('bad field')`. -/
def failingModel : EventModel := ⟨sampleUuid, some "x", fun _ => .error (.valueError "bad field")⟩

/-- A model declaring no payload type. -/
def noPayloadModel : EventModel := ⟨sampleUuid, none, fun _ => .ok []⟩

/-- A sample singular event tuple: user 7, zero id, relative time 60. -/
def sampleSingular : GVariant := singularVariant 7 sampleIdBytes 60 samplePayload

/-- A start child at relative time 5 with an empty payload. -/
def seqStart : GVariant := sequenceChild 5 emptyPayload

/-- A stop child at relative time 9 with an empty payload. -/
def seqStop : GVariant := sequenceChild 9 emptyPayload

/-- One progress child. -/
def seqProgressA : GVariant := sequenceChild 6 emptyPayload

/-- A different progress child. -/
def seqProgressB : GVariant := sequenceChild 7 emptyPayload

/-- A sequence `[start, progressA, stop]`. -/
def seqWithProgressA : GVariant := sequenceVariant 7 sampleIdBytes [seqStart, seqProgressA, seqStop]

/-- The same sequence but with the progress child replaced. -/
def seqWithProgressB : GVariant := sequenceVariant 7 sampleIdBytes [seqStart, seqProgressB, seqStop]

/-- A sequence with a single child. -/
def seqOneChild : GVariant := sequenceVariant 7 sampleIdBytes [seqStart]

/-- A duplicate-registration pair: first class under the sample id. -/
def dupModelA : EventModel := ⟨sampleUuid, none, fun _ => .ok []⟩

/-- A duplicate-registration pair: second class under the same id. -/
def dupModelB : EventModel := ⟨sampleUuid, some "s", fun _ => .ok []⟩

/-! ## Dispatch equations

Branch-by-branch computation rules for the three dispatchers on
well-formed event tuples, shared by the claim theorems below. -/

theorem newSingularEvent_eq_unknown (models : EventModelRegistry) (req : Request)
    (u : Nat) (idb : Bytes) (eid : String) (ts : Int) (p : GVariant)
    (hid : uuidString idb = some eid) (hmiss : lookupEventModel models eid = none) :
    newSingularEvent models req (singularVariant u idb ts p) =
      some (.unknown req (Int.ofNat (u % 2 ^ 32))
        (getEventDatetime req.absoluteTimestamp req.relativeTimestamp ts) eid
        (UnknownEvent.parsePayload p)) := by
  simp [newSingularEvent, singularVariant, GVariant.getChildValue, GVariant.getUint32,
    GVariant.getInt64, getBytes, hid, hmiss]

theorem newSingularEvent_eq_known (models : EventModelRegistry) (req : Request)
    (u : Nat) (idb : Bytes) (eid : String) (ts : Int) (p : GVariant)
    (model : EventModel) (fields : FieldSet)
    (hid : uuidString idb = some eid) (hfound : lookupEventModel models eid = some model)
    (hparse : MetricEvent.parsePayload model p = .ok fields) :
    newSingularEvent models req (singularVariant u idb ts p) =
      some (.known req (Int.ofNat (u % 2 ^ 32))
        (getEventDatetime req.absoluteTimestamp req.relativeTimestamp ts)
        model.eventUuid fields) := by
  simp [newSingularEvent, singularVariant, GVariant.getChildValue, GVariant.getUint32,
    GVariant.getInt64, getBytes, hid, hfound, hparse]

theorem newSingularEvent_eq_error (models : EventModelRegistry) (req : Request)
    (u : Nat) (idb : Bytes) (eid : String) (ts : Int) (p : GVariant)
    (model : EventModel) (e : PyError)
    (hid : uuidString idb = some eid) (hfound : lookupEventModel models eid = some model)
    (hparse : MetricEvent.parsePayload model p = .error e) :
    newSingularEvent models req (singularVariant u idb ts p) =
      some (if e.isKeyError then
        .unknown req (Int.ofNat (u % 2 ^ 32))
          (getEventDatetime req.absoluteTimestamp req.relativeTimestamp ts) eid
          (UnknownEvent.parsePayload p)
      else
        .invalid req (Int.ofNat (u % 2 ^ 32))
          (getEventDatetime req.absoluteTimestamp req.relativeTimestamp ts) eid
          (UnknownEvent.parsePayload p) e.toStr) := by
  by_cases hk : e.isKeyError <;>
    simp [newSingularEvent, singularVariant, GVariant.getChildValue, GVariant.getUint32,
      GVariant.getInt64, getBytes, hid, hfound, hparse, hk]

theorem newAggregateEvent_eq_unknown (models : EventModelRegistry) (req : Request)
    (u : Nat) (idb : Bytes) (eid : String) (count ts : Int) (p : GVariant)
    (hid : uuidString idb = some eid) (hmiss : lookupEventModel models eid = none) :
    newAggregateEvent models req (aggregateVariant u idb count ts p) =
      some (.unknown req (Int.ofNat (u % 2 ^ 32))
        (getEventDatetime req.absoluteTimestamp req.relativeTimestamp ts) count eid
        (UnknownEvent.parsePayload p)) := by
  simp [newAggregateEvent, aggregateVariant, GVariant.getChildValue, GVariant.getUint32,
    GVariant.getInt64, getBytes, hid, hmiss]

theorem newAggregateEvent_eq_known (models : EventModelRegistry) (req : Request)
    (u : Nat) (idb : Bytes) (eid : String) (count ts : Int) (p : GVariant)
    (model : EventModel) (fields : FieldSet)
    (hid : uuidString idb = some eid) (hfound : lookupEventModel models eid = some model)
    (hparse : MetricEvent.parsePayload model p = .ok fields) :
    newAggregateEvent models req (aggregateVariant u idb count ts p) =
      some (.known req (Int.ofNat (u % 2 ^ 32))
        (getEventDatetime req.absoluteTimestamp req.relativeTimestamp ts) count
        model.eventUuid fields) := by
  simp [newAggregateEvent, aggregateVariant, GVariant.getChildValue, GVariant.getUint32,
    GVariant.getInt64, getBytes, hid, hfound, hparse]

theorem newAggregateEvent_eq_error (models : EventModelRegistry) (req : Request)
    (u : Nat) (idb : Bytes) (eid : String) (count ts : Int) (p : GVariant)
    (model : EventModel) (e : PyError)
    (hid : uuidString idb = some eid) (hfound : lookupEventModel models eid = some model)
    (hparse : MetricEvent.parsePayload model p = .error e) :
    newAggregateEvent models req (aggregateVariant u idb count ts p) =
      some (if e.isKeyError then
        .unknown req (Int.ofNat (u % 2 ^ 32))
          (getEventDatetime req.absoluteTimestamp req.relativeTimestamp ts) count eid
          (UnknownEvent.parsePayload p)
      else
        .invalid req (Int.ofNat (u % 2 ^ 32))
          (getEventDatetime req.absoluteTimestamp req.relativeTimestamp ts) count eid
          (UnknownEvent.parsePayload p) e.toStr) := by
  by_cases hk : e.isKeyError <;>
    simp [newAggregateEvent, aggregateVariant, GVariant.getChildValue, GVariant.getUint32,
      GVariant.getInt64, getBytes, hid, hfound, hparse, hk]

theorem newSequenceEvent_eq_short (models : EventModelRegistry) (req : Request)
    (u : Nat) (idb : Bytes) (eid : String) (children : List GVariant)
    (hid : uuidString idb = some eid) (hlen : children.length < 2) :
    newSequenceEvent models req (sequenceVariant u idb children) =
      some (.invalid req (Int.ofNat (u % 2 ^ 32)) eid
        (UnknownEvent.parsePayload (.tuple children))
        ("Sequence must have at least 2 elements, but only had " ++
          toString children.length)) := by
  simp [newSequenceEvent, sequenceVariant, GVariant.getChildValue, GVariant.getUint32,
    GVariant.nChildren, getBytes, hid, hlen]

theorem getLast?_cons_concat {α : Type} (x y : α) (l : List α) :
    (x :: (l ++ [y])).getLast? = some y := by
  rw [← List.cons_append, List.getLast?_concat]

theorem newSequenceEvent_eq_unknown (models : EventModelRegistry) (req : Request)
    (u : Nat) (idb : Bytes) (eid : String) (ts0 : Int) (p0 : GVariant)
    (mids : List GVariant) (ts1 : Int) (p1 : GVariant)
    (hid : uuidString idb = some eid) (hmiss : lookupEventModel models eid = none) :
    newSequenceEvent models req (sequenceVariant u idb
        (sequenceChild ts0 p0 :: mids ++ [sequenceChild ts1 p1])) =
      some (.unknown req (Int.ofNat (u % 2 ^ 32)) eid
        (UnknownEvent.parsePayload
          (.tuple (sequenceChild ts0 p0 :: mids ++ [sequenceChild ts1 p1])))) := by
  simp [newSequenceEvent, sequenceVariant, sequenceChild, GVariant.getChildValue,
    GVariant.getUint32, GVariant.getInt64, GVariant.nChildren, getChildValues, getBytes,
    hid, hmiss, getLast?_cons_concat, Nat.succ_lt_succ_iff]

theorem newSequenceEvent_eq_known (models : EventModelRegistry) (req : Request)
    (u : Nat) (idb : Bytes) (eid : String) (ts0 : Int) (p0 : GVariant)
    (mids : List GVariant) (ts1 : Int) (p1 : GVariant)
    (model : EventModel) (fields : FieldSet)
    (hid : uuidString idb = some eid) (hfound : lookupEventModel models eid = some model)
    (hparse : MetricEvent.parsePayload model p0 = .ok fields) :
    newSequenceEvent models req (sequenceVariant u idb
        (sequenceChild ts0 p0 :: mids ++ [sequenceChild ts1 p1])) =
      some (.known req (Int.ofNat (u % 2 ^ 32))
        (getEventDatetime req.absoluteTimestamp req.relativeTimestamp ts0)
        (getEventDatetime req.absoluteTimestamp req.relativeTimestamp ts1)
        model.eventUuid fields) := by
  simp [newSequenceEvent, sequenceVariant, sequenceChild, GVariant.getChildValue,
    GVariant.getUint32, GVariant.getInt64, GVariant.nChildren, getChildValues, getBytes,
    hid, hfound, hparse, getLast?_cons_concat, Nat.succ_lt_succ_iff]

theorem newSequenceEvent_eq_error (models : EventModelRegistry) (req : Request)
    (u : Nat) (idb : Bytes) (eid : String) (ts0 : Int) (p0 : GVariant)
    (mids : List GVariant) (ts1 : Int) (p1 : GVariant)
    (model : EventModel) (e : PyError)
    (hid : uuidString idb = some eid) (hfound : lookupEventModel models eid = some model)
    (hparse : MetricEvent.parsePayload model p0 = .error e) :
    newSequenceEvent models req (sequenceVariant u idb
        (sequenceChild ts0 p0 :: mids ++ [sequenceChild ts1 p1])) =
      some (if e.isKeyError then
        .unknown req (Int.ofNat (u % 2 ^ 32)) eid
          (UnknownEvent.parsePayload
            (.tuple (sequenceChild ts0 p0 :: mids ++ [sequenceChild ts1 p1])))
      else
        .invalid req (Int.ofNat (u % 2 ^ 32)) eid
          (UnknownEvent.parsePayload
            (.tuple (sequenceChild ts0 p0 :: mids ++ [sequenceChild ts1 p1])))
          e.toStr) := by
  by_cases hk : e.isKeyError <;>
    simp [newSequenceEvent, sequenceVariant, sequenceChild, GVariant.getChildValue,
      GVariant.getUint32, GVariant.getInt64, GVariant.nChildren, getChildValues, getBytes,
      hid, hfound, hparse, hk, getLast?_cons_concat, Nat.succ_lt_succ_iff]

/-- The raw payload stored by `UnknownEvent._parse_payload` is exactly the
value's serialized byte image, with the GLib < 2.62 empty case folded in. -/
theorem UnknownEvent.parsePayload_eq_encode (v : GVariant) :
    UnknownEvent.parsePayload v = v.encode := by
  unfold UnknownEvent.parsePayload GVariant.getDataAsBytes
  cases h : v.encode <;> simp [h]

/-- `uuid.UUID` succeeds on 16-byte identifiers. -/
theorem uuidString_of_length_16 (bs : Bytes) (h16 : bs.length = 16) :
    uuidString bs = some (uuidFormat bs) := by
  simp [uuidString, h16]

/-- On a well-formed singular tuple the dispatcher always produces a
record: every branch of the `try` is absorbed. -/
theorem newSingularEvent_isSome (models : EventModelRegistry) (req : Request)
    (u : Nat) (idb : Bytes) (ts : Int) (p : GVariant) (h16 : idb.length = 16) :
    (newSingularEvent models req (singularVariant u idb ts p)).isSome = true := by
  have hid := uuidString_of_length_16 idb h16
  cases hfound : lookupEventModel models (uuidFormat idb) with
  | none =>
      rw [newSingularEvent_eq_unknown models req u idb _ ts p hid hfound]; rfl
  | some model =>
      cases hparse : MetricEvent.parsePayload model p with
      | ok fields =>
          rw [newSingularEvent_eq_known models req u idb _ ts p model fields hid hfound hparse]
          rfl
      | error e =>
          rw [newSingularEvent_eq_error models req u idb _ ts p model e hid hfound hparse]
          rfl

/-- Whatever the outcome, the singular record's `occured_at` column is the
reconciled event time and its `user_id` column is the widened wire value. -/
theorem newSingularEvent_columns (models : EventModelRegistry) (req : Request)
    (u : Nat) (idb : Bytes) (ts : Int) (p : GVariant) (h16 : idb.length = 16)
    (r : SingularEventRecord)
    (hr : newSingularEvent models req (singularVariant u idb ts p) = some r) :
    r.occuredAt = getEventDatetime req.absoluteTimestamp req.relativeTimestamp ts ∧
    r.userId = Int.ofNat (u % 2 ^ 32) := by
  have hid := uuidString_of_length_16 idb h16
  cases hfound : lookupEventModel models (uuidFormat idb) with
  | none =>
      rw [newSingularEvent_eq_unknown models req u idb _ ts p hid hfound] at hr
      cases hr
      exact ⟨rfl, rfl⟩
  | some model =>
      cases hparse : MetricEvent.parsePayload model p with
      | ok fields =>
          rw [newSingularEvent_eq_known models req u idb _ ts p model fields hid hfound hparse]
            at hr
          cases hr
          exact ⟨rfl, rfl⟩
      | error e =>
          rw [newSingularEvent_eq_error models req u idb _ ts p model e hid hfound hparse] at hr
          have he := Option.some.inj hr
          subst he
          by_cases hk : e.isKeyError <;>
            simp [hk, SingularEventRecord.occuredAt, SingularEventRecord.userId]

/-- Whatever the outcome, the aggregate record's `occured_at` column is
the reconciled event time and its `count` column the verbatim wire count. -/
theorem newAggregateEvent_columns (models : EventModelRegistry) (req : Request)
    (u : Nat) (idb : Bytes) (count ts : Int) (p : GVariant) (h16 : idb.length = 16)
    (r : AggregateEventRecord)
    (hr : newAggregateEvent models req (aggregateVariant u idb count ts p) = some r) :
    r.occuredAt = getEventDatetime req.absoluteTimestamp req.relativeTimestamp ts ∧
    r.count = count := by
  have hid := uuidString_of_length_16 idb h16
  cases hfound : lookupEventModel models (uuidFormat idb) with
  | none =>
      rw [newAggregateEvent_eq_unknown models req u idb _ count ts p hid hfound] at hr
      cases hr
      exact ⟨rfl, rfl⟩
  | some model =>
      cases hparse : MetricEvent.parsePayload model p with
      | ok fields =>
          rw [newAggregateEvent_eq_known models req u idb _ count ts p model fields hid hfound
            hparse] at hr
          cases hr
          exact ⟨rfl, rfl⟩
      | error e =>
          rw [newAggregateEvent_eq_error models req u idb _ count ts p model e hid hfound
            hparse] at hr
          have he := Option.some.inj hr
          subst he
          by_cases hk : e.isKeyError <;>
            simp [hk, AggregateEventRecord.occuredAt, AggregateEventRecord.count]

/-! ## Claims -/

/-- Claim C3: `MetricEvent._parse_payload` obeys exactly the ordered
decode rules.  (1) A schema declaring no payload type succeeds with the
empty field set even when a payload value is present (the payload is only
logged, never fatal).  (2) A declared payload type with no supplied
payload fails with the MissingPayload `ValueError`.  (3) A supplied
payload whose type signature differs from the declared one fails with the
PayloadTypeMismatch `ValueError`, whose message is the literal text
carrying both the expected signature and the actual signature (plus the
rendered payload).  (4) Otherwise the result is exactly the schema's
field extraction — so decoding fails in no case other than an extraction
failure. -/
theorem c3_payload_decode_rules (model : EventModel) (maybePayload : GVariant) :
    (model.payloadType = none →
      MetricEvent.parsePayload model maybePayload = .ok []) ∧
    (∀ ptype, model.payloadType = some ptype → maybePayload.getMaybe = none →
      MetricEvent.parsePayload model maybePayload =
        .error (.valueError ("Metric event " ++ model.eventUuid ++ " needs a " ++ ptype ++
          " payload, but got none"))) ∧
    (∀ ptype p, model.payloadType = some ptype → maybePayload.getMaybe = some p →
      (getVariant p).typeString ≠ ptype →
      MetricEvent.parsePayload model maybePayload =
        .error (.valueError ("Metric event " ++ model.eventUuid ++ " needs a " ++ ptype ++
          " payload, but got " ++ (getVariant p).render ++ " (" ++
          (getVariant p).typeString ++ ")"))) ∧
    (∀ ptype p, model.payloadType = some ptype → maybePayload.getMaybe = some p →
      (getVariant p).typeString = ptype →
      MetricEvent.parsePayload model maybePayload =
        model.getFieldsFromPayload (getVariant p)) := by
  refine ⟨?_, ?_, ?_, ?_⟩
  · intro h
    simp [MetricEvent.parsePayload, h]
  · intro ptype h hm
    simp [MetricEvent.parsePayload, h, hm]
  · intro ptype p h hm hne
    simp [MetricEvent.parsePayload, h, hm, hne]
  · intro ptype p h hm heq
    simp [MetricEvent.parsePayload, h, hm, heq]

/-- Witness for claim C3 at concrete inputs: the no-payload schema accepts
a present payload; a missing payload gives the MissingPayload message; a
string payload against a declared `"x"` signature gives the mismatch
message naming both signatures. -/
theorem c3_witness :
    MetricEvent.parsePayload noPayloadModel samplePayload = .ok [] ∧
    MetricEvent.parsePayload sampleModel emptyPayload =
      .error (.valueError
        "Metric event 00000000-0000-0000-0000-000000000000 needs a x payload, but got none") ∧
    MetricEvent.parsePayload sampleModel (.maybe "v" (some (.boxed (.str "hi")))) =
      .error (.valueError
        "Metric event 00000000-0000-0000-0000-000000000000 needs a x payload, but got hi (s)") := by
  refine ⟨(c3_payload_decode_rules noPayloadModel samplePayload).1 rfl, ?_, ?_⟩
  · have h := (c3_payload_decode_rules sampleModel emptyPayload).2.1 "x" rfl rfl
    rw [h]
    rfl
  · have h := (c3_payload_decode_rules sampleModel (.maybe "v" (some (.boxed (.str "hi"))))).2.2.1
      "x" (.boxed (.str "hi")) rfl rfl (by decide)
    rw [h]
    rfl

/-- Claim C4: timestamp reconciliation computes `event_absolute =
request_absolute + (event_relative − request_relative)` over signed
integers with no clamping or rejection (zero, negative and positive
deltas alike), and the identical pure function `getEventDatetime` yields
the singular `occured_at`, the aggregate `occured_at`, and the sequence
`started_at`/`stopped_at`. -/
theorem c4_timestamp_reconciliation :
    (∀ A R e : Int, getEventDatetime A R e = A + (e - R)) ∧
    (∀ A R : Int, getEventDatetime A R R = A) ∧
    (∀ A R : Int, getEventDatetime A R (R - 100) = A - 100) ∧
    (∀ A R : Int, getEventDatetime A R (R + 50) = A + 50) ∧
    (∀ models req u idb ts p r, idb.length = 16 →
      newSingularEvent models req (singularVariant u idb ts p) = some r →
      r.occuredAt = getEventDatetime req.absoluteTimestamp req.relativeTimestamp ts) ∧
    (∀ models req u idb count ts p r, idb.length = 16 →
      newAggregateEvent models req (aggregateVariant u idb count ts p) = some r →
      r.occuredAt = getEventDatetime req.absoluteTimestamp req.relativeTimestamp ts) ∧
    (∀ models req u idb ts0 p0 mids ts1 p1 model fields, idb.length = 16 →
      lookupEventModel models (uuidFormat idb) = some model →
      MetricEvent.parsePayload model p0 = .ok fields →
      newSequenceEvent models req (sequenceVariant u idb
          (sequenceChild ts0 p0 :: mids ++ [sequenceChild ts1 p1])) =
        some (.known req (Int.ofNat (u % 2 ^ 32))
          (getEventDatetime req.absoluteTimestamp req.relativeTimestamp ts0)
          (getEventDatetime req.absoluteTimestamp req.relativeTimestamp ts1)
          model.eventUuid fields)) := by
  refine ⟨fun A R e => rfl, fun A R => by simp only [getEventDatetime]; omega,
    fun A R => by simp only [getEventDatetime]; omega,
    fun A R => by simp only [getEventDatetime]; omega,
    ?_, ?_, ?_⟩
  · intro models req u idb ts p r h16 hr
    exact (newSingularEvent_columns models req u idb ts p h16 r hr).1
  · intro models req u idb count ts p r h16 hr
    exact (newAggregateEvent_columns models req u idb count ts p h16 r hr).1
  · intro models req u idb ts0 p0 mids ts1 p1 model fields h16 hfound hparse
    exact newSequenceEvent_eq_known models req u idb _ ts0 p0 mids ts1 p1 model fields
      (uuidString_of_length_16 idb h16) hfound hparse

/-- Witness for claim C4: the three calibration identities at `A = 1000`,
`R = 50`, and the reconciled timestamps of a concrete singular dispatch
and a concrete known-sequence dispatch. -/
theorem c4_witness :
    getEventDatetime 1000 50 50 = 1000 ∧
    getEventDatetime 1000 50 (50 - 100) = 1000 - 100 ∧
    getEventDatetime 1000 50 (50 + 50) = 1000 + 50 ∧
    (newSingularEvent [] sampleRequest sampleSingular).map SingularEventRecord.occuredAt =
      some (getEventDatetime 1000 50 60) ∧
    newSequenceEvent [(sampleUuid, noPayloadModel)] sampleRequest seqWithProgressA =
      some (.known sampleRequest 7 (getEventDatetime 1000 50 5) (getEventDatetime 1000 50 9)
        sampleUuid []) := by
  refine ⟨c4_timestamp_reconciliation.2.1 1000 50, c4_timestamp_reconciliation.2.2.1 1000 50,
    c4_timestamp_reconciliation.2.2.2.1 1000 50, ?_, ?_⟩
  · have hr : newSingularEvent [] sampleRequest sampleSingular =
        some (.unknown sampleRequest 7 1010 sampleUuid samplePayload.encode) := rfl
    have h := c4_timestamp_reconciliation.2.2.2.2.1 [] sampleRequest 7 sampleIdBytes 60
      samplePayload _ (by decide) hr
    rw [hr]
    exact congrArg some h
  · exact c4_timestamp_reconciliation.2.2.2.2.2.2 [(sampleUuid, noPayloadModel)] sampleRequest
      7 sampleIdBytes 5 emptyPayload [seqProgressA] 9 emptyPayload noPayloadModel []
      (by decide) rfl rfl

/-- Claim C6: a sequence with fewer than 2 children yields an
Invalid-Sequence record whose raw payload is the serialization of the
entire unexamined child list and whose error text names the required
minimum (2) and the actual child count; and the result is identical for
every registry — the structural check short-circuits dispatch before any
lookup. -/
theorem c6_sequence_min_cardinality (models : EventModelRegistry) (req : Request)
    (u : Nat) (idb : Bytes) (children : List GVariant)
    (h16 : idb.length = 16) (hlen : children.length < 2) :
    newSequenceEvent models req (sequenceVariant u idb children) =
      some (.invalid req (Int.ofNat (u % 2 ^ 32)) (uuidFormat idb)
        ((GVariant.tuple children).encode)
        ("Sequence must have at least 2 elements, but only had " ++
          toString children.length)) ∧
    newSequenceEvent models req (sequenceVariant u idb children) =
      newSequenceEvent [] req (sequenceVariant u idb children) := by
  have hid := uuidString_of_length_16 idb h16
  have h1 := newSequenceEvent_eq_short models req u idb _ children hid hlen
  have h2 := newSequenceEvent_eq_short [] req u idb _ children hid hlen
  rw [UnknownEvent.parsePayload_eq_encode] at h1 h2
  exact ⟨h1, h1.trans h2.symm⟩

/-- Witness for claim C6: the one-child sequence, dispatched against a
non-empty registry, lands in `invalid_sequence` with the count-1 message
and the serialized child list. -/
theorem c6_witness :
    newSequenceEvent [(sampleUuid, sampleModel)] sampleRequest seqOneChild =
      some (.invalid sampleRequest 7 sampleUuid ((GVariant.tuple [seqStart]).encode)
        "Sequence must have at least 2 elements, but only had 1") := by
  have h := (c6_sequence_min_cardinality [(sampleUuid, sampleModel)] sampleRequest 7
    sampleIdBytes [seqStart] (by decide) (by decide)).1
  exact h

/-- Claim C9: the wire `user_id` is an unsigned 32-bit value; the stored
`user_id` column holds the same value as a non-negative signed integer in
64-bit range, with no value loss, whatever the classification outcome. -/
theorem c9_user_id_widening (models : EventModelRegistry) (req : Request)
    (u : Nat) (idb : Bytes) (ts : Int) (p : GVariant)
    (hu : u < 2 ^ 32) (h16 : idb.length = 16) :
    (newSingularEvent models req (singularVariant u idb ts p)).isSome = true ∧
    (∀ r, newSingularEvent models req (singularVariant u idb ts p) = some r →
      r.userId = Int.ofNat u ∧ 0 ≤ r.userId ∧ r.userId < 2 ^ 63) := by
  refine ⟨newSingularEvent_isSome models req u idb ts p h16, fun r hr => ?_⟩
  have h := (newSingularEvent_columns models req u idb ts p h16 r hr).2
  rw [Nat.mod_eq_of_lt hu, Int.ofNat_eq_natCast] at h
  rw [Int.ofNat_eq_natCast]
  refine ⟨h, ?_, ?_⟩ <;> rw [h] <;> omega

/-- Witness for claim C9: `user_id = 4294967295` (max uint32) is stored
as `4294967295`, not a negative number. -/
theorem c9_witness :
    (newSingularEvent [] sampleRequest
        (singularVariant 4294967295 sampleIdBytes 60 samplePayload)).map
      SingularEventRecord.userId = some 4294967295 := by
  obtain ⟨hsome, hall⟩ := c9_user_id_widening [] sampleRequest 4294967295 sampleIdBytes 60
    samplePayload (by norm_num) (by decide)
  cases hrr : newSingularEvent [] sampleRequest
      (singularVariant 4294967295 sampleIdBytes 60 samplePayload) with
  | none => rw [hrr] at hsome; simp at hsome
  | some r =>
      have h := (hall r hrr).1
      rw [hrr] at hsome
      exact (congrArg some h).trans (by rfl)

/-- Claim C10: the raw payload stored by `UnknownEvent._parse_payload` is
always a byte string and never absent: it is the serialized bytes GLib
reports, and the empty byte string when `get_data_as_bytes` reports
`None` (the GLib < 2.62 zero-size case). -/
theorem c10_payload_data_never_null (v : GVariant) :
    UnknownEvent.parsePayload v = v.getDataAsBytes.getD [] ∧
    (v.getDataAsBytes = none → UnknownEvent.parsePayload v = []) := by
  constructor
  · cases h : v.getDataAsBytes <;> simp [UnknownEvent.parsePayload, h]
  · intro h
    simp [UnknownEvent.parsePayload, h]

/-- Witness for claim C10: the empty maybe payload serializes to zero
bytes, GLib reports no bytes object, and the stored `payload_data` is
`b''` rather than an absent value. -/
theorem c10_witness :
    emptyPayload.getDataAsBytes = none ∧ UnknownEvent.parsePayload emptyPayload = [] :=
  ⟨rfl, (c10_payload_data_never_null emptyPayload).2 rfl⟩

/-- Claim C2: whenever the event type identifier is not registered under
the dispatched category, classification yields the category's Unknown
record whose `payload_data` equals the serialized bytes of the original
payload — whatever the payload's content — and whose `event_id` column
preserves the parsed type identifier.  For the sequence category the
record covers the structurally valid (≥ 2 children) case, and its raw
payload is the whole serialized child list. -/
theorem c2_unknown_type (models : EventModelRegistry) (req : Request) (u : Nat) (idb : Bytes)
    (h16 : idb.length = 16) (hmiss : lookupEventModel models (uuidFormat idb) = none) :
    (∀ ts p, newSingularEvent models req (singularVariant u idb ts p) =
      some (.unknown req (Int.ofNat (u % 2 ^ 32))
        (getEventDatetime req.absoluteTimestamp req.relativeTimestamp ts)
        (uuidFormat idb) p.encode)) ∧
    (∀ count ts p, newAggregateEvent models req (aggregateVariant u idb count ts p) =
      some (.unknown req (Int.ofNat (u % 2 ^ 32))
        (getEventDatetime req.absoluteTimestamp req.relativeTimestamp ts) count
        (uuidFormat idb) p.encode)) ∧
    (∀ ts0 p0 mids ts1 p1, newSequenceEvent models req (sequenceVariant u idb
        (sequenceChild ts0 p0 :: mids ++ [sequenceChild ts1 p1])) =
      some (.unknown req (Int.ofNat (u % 2 ^ 32)) (uuidFormat idb)
        ((GVariant.tuple (sequenceChild ts0 p0 :: mids ++ [sequenceChild ts1 p1])).encode))) := by
  have hid := uuidString_of_length_16 idb h16
  refine ⟨fun ts p => ?_, fun count ts p => ?_, fun ts0 p0 mids ts1 p1 => ?_⟩
  · rw [newSingularEvent_eq_unknown models req u idb _ ts p hid hmiss,
      UnknownEvent.parsePayload_eq_encode]
  · rw [newAggregateEvent_eq_unknown models req u idb _ count ts p hid hmiss,
      UnknownEvent.parsePayload_eq_encode]
  · rw [newSequenceEvent_eq_unknown models req u idb _ ts0 p0 mids ts1 p1 hid hmiss,
      UnknownEvent.parsePayload_eq_encode]

/-- Witness for claim C2: with an empty registry the sample singular
event lands in `unknown_singular_event` carrying the serialized payload
bytes and the parsed type identifier. -/
theorem c2_witness :
    newSingularEvent [] sampleRequest sampleSingular =
      some (.unknown sampleRequest 7 1010 sampleUuid samplePayload.encode) := by
  have h := (c2_unknown_type [] sampleRequest 7 sampleIdBytes (by decide) rfl).1 60 samplePayload
  exact h

/-- Counterexample to claim C1 as stated: the sample type identifier is
registered with a model whose field extraction raises `KeyError('boom')`.
The claim calls for an Invalid record carrying the message; instead the
dispatcher's first clause, `except KeyError` — written for the registry
miss — catches the extraction failure too, so the record is Unknown and
the error text is lost. -/
theorem c1_counterexample :
    (lookupEventModel [(sampleUuid, keyErrorModel)] sampleUuid).isSome = true ∧
    MetricEvent.parsePayload keyErrorModel samplePayload = .error (.keyError "boom") ∧
    (newSingularEvent [(sampleUuid, keyErrorModel)] sampleRequest sampleSingular).map
      SingularEventRecord.isInvalid = some false ∧
    (newSingularEvent [(sampleUuid, keyErrorModel)] sampleRequest sampleSingular).map
      SingularEventRecord.isUnknown = some true :=
  ⟨rfl, rfl, rfl, rfl⟩

/-- Claim C1 amended: for every well-formed singular record classification
returns exactly one record and never raises; when the type is registered
and payload decoding or field extraction raises, the result is an Invalid
record of the same category whose error text is the stringified exception
— unless the raised exception is a `KeyError`, in which case the
registry-miss handler catches it and an Unknown record is produced
instead, with no error text. -/
theorem c1_classification_total (models : EventModelRegistry) (req : Request) (u : Nat)
    (idb : Bytes) (ts : Int) (p : GVariant) (h16 : idb.length = 16) :
    (newSingularEvent models req (singularVariant u idb ts p)).isSome = true ∧
    (∀ model e, lookupEventModel models (uuidFormat idb) = some model →
      MetricEvent.parsePayload model p = .error e →
      newSingularEvent models req (singularVariant u idb ts p) =
        some (if e.isKeyError then
          .unknown req (Int.ofNat (u % 2 ^ 32))
            (getEventDatetime req.absoluteTimestamp req.relativeTimestamp ts)
            (uuidFormat idb) p.encode
        else
          .invalid req (Int.ofNat (u % 2 ^ 32))
            (getEventDatetime req.absoluteTimestamp req.relativeTimestamp ts)
            (uuidFormat idb) p.encode e.toStr)) := by
  refine ⟨newSingularEvent_isSome models req u idb ts p h16, fun model e hfound hparse => ?_⟩
  rw [newSingularEvent_eq_error models req u idb _ ts p model e
    (uuidString_of_length_16 idb h16) hfound hparse, UnknownEvent.parsePayload_eq_encode]

/-- Witness for amended claim C1: the registered model whose extraction
raises `ValueError('bad field')` yields the Invalid record with exactly
that error text, and the failure is not propagated. -/
theorem c1_witness :
    newSingularEvent [(sampleUuid, failingModel)] sampleRequest sampleSingular =
      some (.invalid sampleRequest 7 1010 sampleUuid samplePayload.encode "bad field") := by
  have h := (c1_classification_total [(sampleUuid, failingModel)] sampleRequest 7 sampleIdBytes
    60 samplePayload (by decide)).2 failingModel (.valueError "bad field") rfl rfl
  exact h

/-- Counterexample to claim C5 as stated: two sequences that differ only
in the content of their middle (progress) child classify — under an empty
registry — to Unknown-Sequence records with different `payload_data`, so
the progress child's content does appear in the resulting record. -/
theorem c5_counterexample :
    (newSequenceEvent [] sampleRequest seqWithProgressA).map SequenceRecord.payloadData? ≠
      (newSequenceEvent [] sampleRequest seqWithProgressB).map SequenceRecord.payloadData? := by
  decide

/-- Claim C5 amended: for a sequence of ≥ 2 children whose type is
registered and whose start payload decodes, the first child is the start
event and the last the stop event, `started_at`/`stopped_at` are
reconciled from their respective relative timestamps, decoding uses the
start child's payload only, and the resulting Known record is entirely
independent of the intermediate (progress) children; on the Unknown and
Invalid outcomes, however, the record's raw `payload_data` is the whole
serialized child list, progress children included. -/
theorem c5_sequence_assembly (models : EventModelRegistry) (req : Request) (u : Nat)
    (idb : Bytes) (ts0 : Int) (p0 : GVariant) (ts1 : Int) (p1 : GVariant)
    (model : EventModel) (fields : FieldSet) (h16 : idb.length = 16)
    (hfound : lookupEventModel models (uuidFormat idb) = some model)
    (hparse : MetricEvent.parsePayload model p0 = .ok fields) :
    ∀ mids : List GVariant,
      newSequenceEvent models req (sequenceVariant u idb
          (sequenceChild ts0 p0 :: mids ++ [sequenceChild ts1 p1])) =
        some (.known req (Int.ofNat (u % 2 ^ 32))
          (getEventDatetime req.absoluteTimestamp req.relativeTimestamp ts0)
          (getEventDatetime req.absoluteTimestamp req.relativeTimestamp ts1)
          model.eventUuid fields) :=
  fun mids => newSequenceEvent_eq_known models req u idb _ ts0 p0 mids ts1 p1 model fields
    (uuidString_of_length_16 idb h16) hfound hparse

/-- Witness for amended claim C5: under the no-payload model, the two
three-child sequences that differ only in their progress child classify
to the same Known record, built from the start and stop children only. -/
theorem c5_witness :
    newSequenceEvent [(sampleUuid, noPayloadModel)] sampleRequest seqWithProgressA =
      some (.known sampleRequest 7 955 959 sampleUuid []) ∧
    newSequenceEvent [(sampleUuid, noPayloadModel)] sampleRequest seqWithProgressB =
      some (.known sampleRequest 7 955 959 sampleUuid []) := by
  constructor
  · exact c5_sequence_assembly [(sampleUuid, noPayloadModel)] sampleRequest 7 sampleIdBytes
      5 emptyPayload 9 emptyPayload noPayloadModel [] (by decide) rfl rfl [seqProgressA]
  · exact c5_sequence_assembly [(sampleUuid, noPayloadModel)] sampleRequest 7 sampleIdBytes
      5 emptyPayload 9 emptyPayload noPayloadModel [] (by decide) rfl rfl [seqProgressB]

/-- Counterexample to claim C7 as stated: registering a second model under
the already-registered sample identifier does not fail — both
registrations succeed, and lookup afterwards returns the second model
(its `__payload_type__` is `some "s"`, the first model's was `none`): the
registry silently replaced the earlier schema. -/
theorem c7_counterexample :
    registerEventModel (registerEventModel [] sampleUuid dupModelA) sampleUuid dupModelB =
      [(sampleUuid, dupModelB), (sampleUuid, dupModelA)] ∧
    (lookupEventModel (registerEventModel (registerEventModel [] sampleUuid dupModelA)
        sampleUuid dupModelB) sampleUuid).map EventModel.payloadType = some (some "s") ∧
    (lookupEventModel (registerEventModel [] sampleUuid dupModelA) sampleUuid).map
      EventModel.payloadType = some none :=
  ⟨rfl, rfl, rfl⟩

/-- Claim C7 amended: `MetricMeta.__new__` registers by plain dict
assignment, so registering a second model class under an
already-registered event identifier never fails and silently replaces the
earlier schema: lookup afterwards returns the later model, for every
starting registry. -/
theorem c7_registration_replaces (models : EventModelRegistry) (eventUuid : String)
    (m1 m2 : EventModel) :
    lookupEventModel
      (registerEventModel (registerEventModel models eventUuid m1) eventUuid m2) eventUuid =
      some m2 := by
  simp [lookupEventModel, registerEventModel, List.lookup]

/-- Counterexample to claim C8 as stated: concrete Unknown-Sequence and
Invalid-Sequence records carry no `started_at` or `stopped_at` columns at
all — `UnknownSequence` and `InvalidSequence` inherit only the
raw-payload base classes, not `SequenceEvent`. -/
theorem c8_counterexample :
    (newSequenceEvent [] sampleRequest seqWithProgressA).map SequenceRecord.startedAt? =
      some none ∧
    (newSequenceEvent [] sampleRequest seqWithProgressA).map SequenceRecord.stoppedAt? =
      some none ∧
    (newSequenceEvent [] sampleRequest seqOneChild).map SequenceRecord.startedAt? =
      some none ∧
    (newSequenceEvent [] sampleRequest seqOneChild).map SequenceRecord.stoppedAt? =
      some none :=
  ⟨rfl, rfl, rfl, rfl⟩

/-- Claim C8 amended: Unknown and Invalid singular records carry
`occured_at` (the reconciled time); Unknown and Invalid aggregate records
carry `occured_at` and the verbatim `count`; but Unknown-Sequence records
carry no `started_at`/`stopped_at` — beside the identifying columns they
hold only the raw serialized bytes of the whole child list. -/
theorem c8_category_fields (models : EventModelRegistry) (req : Request) (u : Nat)
    (idb : Bytes) (h16 : idb.length = 16) :
    (∀ ts p r, newSingularEvent models req (singularVariant u idb ts p) = some r →
      r.occuredAt = getEventDatetime req.absoluteTimestamp req.relativeTimestamp ts) ∧
    (∀ count ts p r, newAggregateEvent models req (aggregateVariant u idb count ts p) = some r →
      r.occuredAt = getEventDatetime req.absoluteTimestamp req.relativeTimestamp ts ∧
      r.count = count) ∧
    (∀ ts0 p0 mids ts1 p1 r, lookupEventModel models (uuidFormat idb) = none →
      newSequenceEvent models req (sequenceVariant u idb
          (sequenceChild ts0 p0 :: mids ++ [sequenceChild ts1 p1])) = some r →
      r.startedAt? = none ∧ r.stoppedAt? = none ∧
      r.payloadData? =
        some ((GVariant.tuple (sequenceChild ts0 p0 :: mids ++ [sequenceChild ts1 p1])).encode)) := by
  refine ⟨fun ts p r hr => (newSingularEvent_columns models req u idb ts p h16 r hr).1,
    fun count ts p r hr => newAggregateEvent_columns models req u idb count ts p h16 r hr,
    fun ts0 p0 mids ts1 p1 r hmiss hr => ?_⟩
  rw [newSequenceEvent_eq_unknown models req u idb _ ts0 p0 mids ts1 p1
    (uuidString_of_length_16 idb h16) hmiss, UnknownEvent.parsePayload_eq_encode] at hr
  have he := Option.some.inj hr
  subst he
  exact ⟨rfl, rfl, rfl⟩

/-- Witness for amended claim C8: the concrete unknown singular record
carries its reconciled `occured_at`, while the concrete unknown sequence
record carries no timestamps, only the serialized child list. -/
theorem c8_witness :
    (newSingularEvent [] sampleRequest sampleSingular).map SingularEventRecord.occuredAt =
      some (getEventDatetime 1000 50 60) ∧
    (newSequenceEvent [] sampleRequest seqWithProgressB).map SequenceRecord.startedAt? =
      some none ∧
    (newSequenceEvent [] sampleRequest seqWithProgressB).map SequenceRecord.payloadData? =
      some (some ((GVariant.tuple [seqStart, seqProgressB, seqStop]).encode)) := by
  obtain ⟨hsing, _, hseq⟩ := c8_category_fields [] sampleRequest 7 sampleIdBytes (by decide)
  refine ⟨?_, ?_, ?_⟩
  · have hr : newSingularEvent [] sampleRequest sampleSingular =
        some (.unknown sampleRequest 7 1010 sampleUuid samplePayload.encode) := rfl
    have h := hsing 60 samplePayload _ hr
    rw [hr]
    exact congrArg some h
  · have hr : newSequenceEvent [] sampleRequest seqWithProgressB =
        some (.unknown sampleRequest 7 sampleUuid
          ((GVariant.tuple [seqStart, seqProgressB, seqStop]).encode)) := rfl
    have h := hseq 5 emptyPayload [seqProgressB] 9 emptyPayload _ rfl hr
    rw [hr]
    exact congrArg some h.1
  · have hr : newSequenceEvent [] sampleRequest seqWithProgressB =
        some (.unknown sampleRequest 7 sampleUuid
          ((GVariant.tuple [seqStart, seqProgressB, seqStop]).encode)) := rfl
    have h := hseq 5 emptyPayload [seqProgressB] 9 emptyPayload _ rfl hr
    rw [hr]
    exact congrArg some h.2.2

end Azafea
